import Mathlib

/-!
Verification of the equibid notification dispatch and callback-correlation
engine (worker.py, webhook.py, providers/telegram.py,
providers/evolution_api.py, app/providers/z_api.py).

The relational store (the `notifications_queue` table joined with
`user_profiles`, `saved_searches` and the lot/auction tables) is shallowly
embedded as Lean lists of records; SQL joins against tables keyed by a
unique column are embedded as `List.find?` on that key, and `NOW()` is an
explicit `now : Nat` parameter.  Python functions that can raise are
embedded as `Except`-valued functions.
-/

/-- A row of `public.notifications_queue`.  Columns are those the code
reads or writes (worker.py queries, webhook.py updates); timestamps are
`Nat`, nullable columns are `Option`. -/
structure Job where
  id : Nat
  correlation_id : String
  channel : String
  status : String
  user_id : Nat
  saved_search_id : Nat
  entity_id : Nat
  created_at : Nat
  sent_at : Option Nat
  provider_message_id : Option String
  responded : Bool
  response_value : Option String
  response_at : Option Nat
deriving DecidableEq, Repr

/-- A row of `public.user_profiles` (the columns worker.py touches). -/
structure UserProfile where
  user_id : Nat
  first_name : String
  phone_number : String
deriving DecidableEq, Repr

/-- A row of `public.saved_searches` (the columns worker.py touches). -/
structure SavedSearch where
  id : Nat
  filters : String
deriving DecidableEq, Repr

/-- The tables worker.py's claim query joins. -/
structure DB where
  jobs : List Job
  profiles : List UserProfile
  searches : List SavedSearch
deriving DecidableEq, Repr

/-- The flattened result row of the join in
`buscar_dados_completos_por_correlation_id` (webhook.py): one lot together
with the `event_name` of its auction and the `name` of the auction house,
keyed by `l.id` which the query compares with `nq.entity_id`.  The birth
date is carried already `strftime`-formatted, since the code only ever
formats it for display. -/
structure LotRow where
  lot_id : Nat
  lot_nome : String
  lot_leilao : String
  lot_leiloeira : String
  lot_data_nascimento : Option String
  lot_pelagem : String
  lot_raca : String
  lot_sexo : String
  lot_pai : String
  lot_mae : String
  lot_url : String
deriving DecidableEq, Repr

/-- `registrar_resposta_do_usuario` (webhook.py lines 113-143): an
unconditional `UPDATE public.notifications_queue SET responded = TRUE,
response_value = %s, response_at = NOW() WHERE correlation_id = %s`.
There is no status check and no `applied` return value. -/
def registrar_resposta_do_usuario (jobs : List Job) (now : Nat)
    (correlation_id : String) (acao : String) : List Job :=
  jobs.map fun j =>
    if j.correlation_id == correlation_id then
      { j with responded := true, response_value := some acao,
               response_at := some now }
    else j

/-- `buscar_dados_completos_por_correlation_id` (webhook.py lines 71-111):
joins `notifications_queue` with the lot tables on
`nq.correlation_id = %s` and `nq.entity_id = l.id`; returns the first row
or `none`. -/
def buscar_dados_completos_por_correlation_id (jobs : List Job)
    (lots : List LotRow) (correlation_id : String) : Option LotRow :=
  match jobs.find? (fun j => j.correlation_id == correlation_id) with
  | none => none
  | some j => lots.find? (fun l => l.lot_id == j.entity_id)

/-- Python's `callback_data.split(":", 1)` on the character list: split at
the first colon, `none` when there is no colon (in which case the
two-variable unpacking in webhook.py raises `ValueError`). -/
def splitFirstColon : List Char → Option (List Char × List Char)
  | [] => none
  | c :: cs =>
    if c = ':' then some ([], cs)
    else
      match splitFirstColon cs with
      | none => none
      | some (a, b) => some (c :: a, b)

/-- `acao, correlation_id = callback_data.split(":", 1)` (webhook.py line
202) as a total function on strings. -/
def splitToken (s : String) : Option (String × String) :=
  match splitFirstColon s.data with
  | none => none
  | some (a, b) => some (⟨a⟩, ⟨b⟩)

/-- The f-string `f"{action}:{correlation_id}"` used for `callback_data`
in `enviar_pergunta_inicial` (worker.py lines 112-117). -/
def actionToken (action : String) (correlation_id : String) : String :=
  action ++ ":" ++ correlation_id

/-- A button dict as passed to `TelegramProvider.send_message`: always a
`text` plus either a `callback_data` or a `url` entry. -/
structure Button where
  text : String
  callback_data : Option String := none
  url : Option String := none
deriving DecidableEq, Repr

/-- Python exceptions relevant to these modules. -/
inductive PyError where
  | nameError
  | runtimeError
  | typeError
deriving DecidableEq, Repr

/-- The HTTP request `TelegramProvider._make_request` would issue for
`send_message`. -/
structure TgRequest where
  endpoint : String
  chat_id : String
  text : String
  hasReplyMarkup : Bool
deriving DecidableEq, Repr

/-- Module-level imports of providers/telegram.py (lines 1-3):
`os`, `requests`, `typing`.  Note that `json` is absent. -/
def telegramImports : List String := ["os", "requests", "typing"]

/-- `TelegramProvider.send_message` (providers/telegram.py lines 32-53).
With a truthy `buttons` list the body evaluates `json.dumps(...)`; since
`json` is not among `telegramImports`, that evaluation raises `NameError`
before `_make_request` is reached.  On success the returned value is the
HTTP request handed to `_make_request` (the network outcome itself is
outside the model). -/
def send_message (chat_id : String) (text : String)
    (buttons : List Button) : Except PyError TgRequest :=
  if buttons.isEmpty then
    .ok { endpoint := "sendMessage", chat_id := chat_id, text := text,
          hasReplyMarkup := false }
  else if telegramImports.contains "json" then
    .ok { endpoint := "sendMessage", chat_id := chat_id, text := text,
          hasReplyMarkup := true }
  else
    .error .nameError

/-- The value a branch of `processar_webhook` produces: either a plain
JSON dict returned with HTTP 200, or a raised `HTTPException` /
uncaught exception that FastAPI turns into an error status. -/
inductive HandlerResponse where
  | json (status : String) (message : String)
  | httpException (code : Int)
deriving DecidableEq, Repr

/-- One invocation of `telegram.send_message` attempted by the webhook. -/
structure SendCall where
  chat_id : Int
  text : String
  buttons : List Button
deriving DecidableEq, Repr

/-- Result of one webhook invocation: the table after it, the response,
and the provider send calls it attempted. -/
structure WebhookOutcome where
  jobs : List Job
  response : HandlerResponse
  calls : List SendCall
deriving DecidableEq, Repr

/-- Message text of the `show_details` branch (webhook.py lines 220-236);
`lot_data_nascimento` falls back to `N/A` exactly as the code does. -/
def detalhesMensagem (l : LotRow) : String :=
  "🐴 *Detalhes do Lote: " ++ l.lot_nome ++ "*\n\n" ++
  "Leilão: *" ++ l.lot_leilao ++ "*\n" ++
  "Leiloeira: *" ++ l.lot_leiloeira ++ "*\n" ++
  "Nascimento: *" ++ l.lot_data_nascimento.getD "N/A" ++ "*\n" ++
  "Raça: *" ++ l.lot_raca ++ "*\n" ++
  "Pelagem: *" ++ l.lot_pelagem ++ "*\n" ++
  "Sexo: *" ++ l.lot_sexo ++ "*\n" ++
  "Pai: *" ++ l.lot_pai ++ "*\n" ++
  "Mãe: *" ++ l.lot_mae ++ "*"

/-- Message text of the `no_thanks` branch (webhook.py line 243). -/
def noThanksMensagem : String :=
  "Entendido. Você gostaria de ajustar os critérios desta busca para receber notificações mais precisas no futuro?"

/-- Message text of the `close_convo` branch (webhook.py line 254). -/
def closeConvoMensagem : String :=
  "Tudo bem! Continuaremos de olho para você. 😉"

/-- Runs one telegram send attempt inside the webhook's `try` block
(webhook.py lines 219-259): a `RuntimeError` is caught (only printed, the
success return still runs), while any other exception — in particular the
`NameError` of providers/telegram.py — escapes `except RuntimeError` and
becomes an HTTP 500. -/
def webhookSend (jobs : List Job) (call : SendCall) : WebhookOutcome :=
  match send_message (toString call.chat_id) call.text call.buttons with
  | .ok _ => ⟨jobs, .json "success" "Ação processada.", [call]⟩
  | .error .runtimeError => ⟨jobs, .json "success" "Ação processada.", [call]⟩
  | .error _ => ⟨jobs, .httpException 500, [call]⟩

/-- The `callback_query` branch of `processar_webhook` (webhook.py lines
195-261): parse the token at the first colon (malformed tokens return the
error dict and never reach the store), unconditionally record the
response, look up the lot by correlation id (404 if absent — the response
row is already written by then), then branch on the action; unknown
actions send nothing and still return success. -/
def processar_webhook (jobs : List Job) (lots : List LotRow) (now : Nat)
    (callback_data : String) (chat_id : Int) : WebhookOutcome :=
  match splitToken callback_data with
  | none => ⟨jobs, .json "error" "Formato de callback_data inválido.", []⟩
  | some (acao, correlation_id) =>
    let jobs' := registrar_resposta_do_usuario jobs now correlation_id acao
    match buscar_dados_completos_por_correlation_id jobs' lots correlation_id with
    | none => ⟨jobs', .httpException 404, []⟩
    | some lote =>
      if acao == "show_details" then
        webhookSend jobs' ⟨chat_id, detalhesMensagem lote,
          [{ text := "➡️ Abrir pagina do lote", url := some lote.lot_url }]⟩
      else if acao == "no_thanks" then
        webhookSend jobs' ⟨chat_id, noThanksMensagem,
          [{ text := "🔧 Sim, revisar busca",
             url := some "https://equibid.com.br/minhas-buscas" },
           { text := "👍 Deixar para depois",
             callback_data := some (actionToken "close_convo" correlation_id) }]⟩
      else if acao == "close_convo" then
        webhookSend jobs' ⟨chat_id, closeConvoMensagem, []⟩
      else
        ⟨jobs', .json "success" "Ação processada.", []⟩

/-- The WHERE predicate of the claim query in
`buscar_notificacao_pendente_do_db` (worker.py lines 45-68):
`nq.status = 'pending' and nq.channel = 'whatsapp'`.  The projected
`channel` column is the hardcoded literal `'telegram'` (the real
`nq.channel` projection is commented out), but the filter is on the real
column. -/
def eligibleSql (j : Job) : Bool :=
  j.status == "pending" && j.channel == "whatsapp"

/-- `join public.user_profiles up on nq.user_id = up.user_id`, with
`user_id` as the profile table's key. -/
def findProfile (db : DB) (uid : Nat) : Option UserProfile :=
  db.profiles.find? (fun p => p.user_id == uid)

/-- `join public.saved_searches ss on nq.saved_search_id = ss.id`, with
`id` as the saved-search table's key. -/
def findSearch (db : DB) (sid : Nat) : Option SavedSearch :=
  db.searches.find? (fun s => s.id == sid)

/-- Whether the inner joins of the claim query produce a row for this
job. -/
def joinOk (db : DB) (j : Job) : Bool :=
  (findProfile db j.user_id).isSome && (findSearch db j.saved_search_id).isSome

/-- Rows the claim query can return given the set of row ids currently
locked by other in-flight transactions: `FOR UPDATE SKIP LOCKED` drops the
locked rows from consideration. -/
def candidates (db : DB) (locked : List Nat) : List Job :=
  db.jobs.filter fun j =>
    eligibleSql j && joinOk db j && !(locked.contains j.id)

/-- `order by created_at limit 1`: one row of minimal `created_at` (ties
resolved arbitrarily by the store; here, last such row in table order). -/
def minByCreated : List Job → Option Job
  | [] => none
  | j :: js =>
    match minByCreated js with
    | none => some j
    | some k => if j.created_at ≤ k.created_at then some j else some k

/-- The job row the claim query locks and returns, if any. -/
def claimJob (db : DB) (locked : List Nat) : Option Job :=
  minByCreated (candidates db locked)

/-- The projected row returned by `buscar_notificacao_pendente_do_db`
(worker.py lines 39-71): note the hardcoded `'telegram' channel` and
`'5511996347828' as user_phone` in the SELECT list. -/
structure ClaimRow where
  notification_id : Nat
  correlation_id : String
  channel : String
  user_name : String
  user_phone : String
  saved_search_detail : String
deriving DecidableEq, Repr

/-- `buscar_notificacao_pendente_do_db` (worker.py lines 39-71): claim the
oldest pending whatsapp-channel row not locked by a concurrent
transaction and project it. -/
def buscar_notificacao_pendente_do_db (db : DB) (locked : List Nat) :
    Option ClaimRow :=
  match claimJob db locked with
  | none => none
  | some j =>
    match findProfile db j.user_id, findSearch db j.saved_search_id with
    | some up, some ss =>
      some { notification_id := j.id, correlation_id := j.correlation_id,
             channel := "telegram", user_name := up.first_name,
             user_phone := "5511996347828",
             saved_search_detail := ss.filters }
    | _, _ => none

/-- Columns assigned by the SET clause of the UPDATE in
`marcar_notificacao_como_enviada` (worker.py lines 76-82). -/
def marcarEnviadaSetColumns : List String := ["status", "sent_at"]

/-- Number of `%s` placeholders in that UPDATE (only `WHERE id = %s`). -/
def marcarEnviadaPlaceholders : Nat := 1

/-- The parameter tuple passed to `cur.execute` in
`marcar_notificacao_como_enviada` (worker.py line 84):
`(provider_message_id, notification_id)`. -/
def marcarEnviadaParams (notification_id : Nat)
    (provider_message_id : String) : List String :=
  [provider_message_id, toString notification_id]

/-- The effect the UPDATE statement text would have when executed with a
single well-bound id parameter: set `status = 'sent'`, `sent_at = NOW()`
on the row with that id (no other column appears in the SET clause). -/
def marcarEnviadaUpdate (jobs : List Job) (now : Nat) (the_id : Nat) :
    List Job :=
  jobs.map fun j =>
    if j.id == the_id then { j with status := "sent", sent_at := some now }
    else j

/-- `marcar_notificacao_como_enviada` (worker.py lines 74-85): psycopg2's
`cur.execute` raises `TypeError` whenever the number of parameters differs
from the number of `%s` placeholders, in which case nothing is updated. -/
def marcar_notificacao_como_enviada (jobs : List Job) (now : Nat)
    (notification_id : Nat) (provider_message_id : String) :
    Except PyError (List Job) :=
  if (marcarEnviadaParams notification_id provider_message_id).length
      = marcarEnviadaPlaceholders then
    .ok (marcarEnviadaUpdate jobs now notification_id)
  else
    .error .typeError

/-- The two interactive buttons built for the initial telegram question
(worker.py lines 112-117), embedding the correlation id in the
`callback_data` tokens. -/
def botoesIniciais (correlation_id : String) : List Button :=
  [ { text := "✅ Sim, ver detalhes",
      callback_data := some (actionToken "show_details" correlation_id) },
    { text := "❌ Não, obrigado",
      callback_data := some (actionToken "no_thanks" correlation_id) } ]

/-- One iteration of the worker's `while True` body (worker.py lines
148-178), with the provider interaction abstracted as `send` (the result
of `enviar_pergunta_inicial`: `.ok (some mid)` on a successful send,
`.ok none` when no provider matched or a `RuntimeError` was caught, and
`.error e` when an exception escapes).  A raised exception reaches the
broad `except` in `main` and the transaction is rolled back; otherwise the
cycle commits whatever it wrote. -/
def workerCycle (db : DB) (now : Nat)
    (send : ClaimRow → Except PyError (Option String)) : DB :=
  match buscar_notificacao_pendente_do_db db [] with
  | none => db
  | some row =>
    match send row with
    | .error _ => db
    | .ok none => db
    | .ok (some mid) =>
      match marcar_notificacao_como_enviada db.jobs now
          row.notification_id mid with
      | .ok jobs' => { db with jobs := jobs' }
      | .error _ => db

/-- N concurrent claim transactions under `FOR UPDATE SKIP LOCKED`
semantics: while the transactions are in flight each claimed row stays
locked, so every caller skips all rows already claimed by the others and
any interleaving is equivalent to this sequential accumulation of the
locked set.  Returns the list of claimed row ids. -/
def runClaims (db : DB) : Nat → List Nat → List Nat
  | 0, _ => []
  | n + 1, locked =>
    match claimJob db locked with
    | none => []
    | some j => j.id :: runClaims db n (j.id :: locked)

/-- The urllib3 `Retry` configuration mounted on a provider's HTTP
session (the fields the code sets that govern which calls get retried). -/
structure RetryPolicy where
  total : Nat
  allowed_methods : List String
  status_forcelist : List Nat
deriving DecidableEq, Repr

/-- The `Retry` object built in `EvolutionAPIProvider.__init__`
(providers/evolution_api.py lines 55-65): `total=max_retries` (default 3),
`allowed_methods=frozenset(["GET","POST","PUT","DELETE","PATCH"])`,
`status_forcelist=[408,429,500,502,503,504]`, mounted on the session for
both http and https. -/
def evolutionRetry (max_retries : Nat) : RetryPolicy :=
  { total := max_retries,
    allowed_methods := ["GET", "POST", "PUT", "DELETE", "PATCH"],
    status_forcelist := [408, 429, 500, 502, 503, 504] }

/-- Session retry configuration of each provider: telegram.py line 24 and
z_api.py line 49 call plain `requests.request` with no adapter mounted,
so no low-level retry policy applies; evolution_api.py mounts
`evolutionRetry` with the constructor default `max_retries = 3`. -/
def telegramRetryPolicy : Option RetryPolicy := none

/-- See `telegramRetryPolicy`; z_api.py uses plain `requests.request`. -/
def zapiRetryPolicy : Option RetryPolicy := none

/-- See `telegramRetryPolicy`; the default session of
`EvolutionAPIProvider`. -/
def evolutionRetryPolicy : Option RetryPolicy := some (evolutionRetry 3)

/-- Maximum number of connection-level attempts urllib3 makes
for one logical request: one initial attempt, plus `total` retries when
the method is in `allowed_methods` (urllib3's documented `Retry`
behaviour), and no retry otherwise or without an adapter. -/
def maxAttempts (p : Option RetryPolicy) (method : String) : Nat :=
  match p with
  | none => 1
  | some pol => if pol.allowed_methods.contains method then 1 + pol.total else 1

/-- HTTP method of `EvolutionAPIProvider.send_text` (evolution_api.py
line 139: `self._request("POST", "message/sendText", ...)`); the other
send operations (`send_buttons`, `send_media_url`, z_api's `send_text`
and `send_button_actions`, telegram's `send_message`) are POSTs as
well. -/
def sendOperationMethod : String := "POST"

/-- Sample `user_profiles` row used in concrete scenarios. -/
def sampleProfile : UserProfile :=
  { user_id := 10, first_name := "Ana", phone_number := "5511999990000" }

/-- Sample `saved_searches` row used in concrete scenarios. -/
def sampleSearch : SavedSearch := { id := 20, filters := "mangalarga" }

/-- Sample lot row used in concrete scenarios (its `lot_id` matches the
jobs' `entity_id` below). -/
def sampleLot : LotRow :=
  { lot_id := 30, lot_nome := "Lote 25", lot_leilao := "Leilao X",
    lot_leiloeira := "Casa Y", lot_data_nascimento := some "01/01/2020",
    lot_pelagem := "alazao", lot_raca := "mangalarga", lot_sexo := "macho",
    lot_pai := "Pai Z", lot_mae := "Mae W",
    lot_url := "https://example.com/lote/30" }

/-- A pending job created with `channel = telegram`. -/
def telegramJob : Job :=
  { id := 1, correlation_id := "cid-1", channel := "telegram",
    status := "pending", user_id := 10, saved_search_id := 20,
    entity_id := 30, created_at := 100, sent_at := none,
    provider_message_id := none, responded := false,
    response_value := none, response_at := none }

/-- Store holding exactly the pending telegram job, with its joined
profile and saved search present. -/
def telegramDB : DB :=
  { jobs := [telegramJob], profiles := [sampleProfile],
    searches := [sampleSearch] }

/-- A pending job with `channel = whatsapp`. -/
def waJob : Job :=
  { telegramJob with
    id := 2, correlation_id := "cid-2", channel := "whatsapp" }

/-- Store holding exactly the pending whatsapp job. -/
def waDB : DB :=
  { jobs := [waJob], profiles := [sampleProfile],
    searches := [sampleSearch] }

/-- A second pending whatsapp job, older than `waJob`. -/
def waJobOlder : Job :=
  { waJob with id := 6, correlation_id := "cid-6", created_at := 90 }

/-- Store with two pending whatsapp jobs of distinct ids. -/
def waDB2 : DB :=
  { jobs := [waJob, waJobOlder], profiles := [sampleProfile],
    searches := [sampleSearch] }

/-- A job that has already been sent (no job is pending here). -/
def sentJob : Job :=
  { telegramJob with
    id := 3, correlation_id := "cid-3", status := "sent",
    sent_at := some 50 }

/-- Store whose only job is already `sent`. -/
def sentDB : DB :=
  { jobs := [sentJob], profiles := [sampleProfile],
    searches := [sampleSearch] }

/-- A job that already carries a recorded response (a first callback
delivery for `show_details` was processed at time 1). -/
def respondedJob : Job :=
  { sentJob with
    responded := true, response_value := some "show_details",
    response_at := some 1 }

/-- A provider interaction that never yields a message id: the provider
call failed (for a permanent 4xx error the provider raises
`RuntimeError`, which `enviar_pergunta_inicial` catches, returning
`None`). -/
def sendFalhaPermanente : ClaimRow → Except PyError (Option String) :=
  fun _ => .ok none

theorem splitFirstColon_append (a b : List Char) (h : ':' ∉ a) :
    splitFirstColon (a ++ ':' :: b) = some (a, b) := by
  induction a with
  | nil => simp [splitFirstColon]
  | cons c cs ih =>
    rw [List.mem_cons, not_or] at h
    simp [splitFirstColon, Ne.symm h.1, ih h.2]

theorem splitFirstColon_eq_none (l : List Char) (h : ':' ∉ l) :
    splitFirstColon l = none := by
  induction l with
  | nil => rfl
  | cons c cs ih =>
    rw [List.mem_cons, not_or] at h
    simp [splitFirstColon, Ne.symm h.1, ih h.2]

theorem actionToken_data (acao correlation_id : String) :
    (actionToken acao correlation_id).data
      = acao.data ++ ':' :: correlation_id.data := by
  cases acao with
  | mk la =>
    cases correlation_id with
    | mk lb =>
      show (la ++ [':']) ++ lb = la ++ ':' :: lb
      simp

theorem splitToken_actionToken (acao correlation_id : String)
    (h : ':' ∉ acao.data) :
    splitToken (actionToken acao correlation_id)
      = some (acao, correlation_id) := by
  unfold splitToken
  rw [actionToken_data, splitFirstColon_append _ _ h]

/-- C8: the token built by the Dispatcher as
`"<action_name>:<correlation_id>"` (`actionToken`, worker.py lines
112-117) is parsed by the Callback Resolver at the first colon
(`splitToken`, webhook.py line 202) back into exactly that
`(action, correlation_id)` pair whenever the action name contains no
colon, even when the correlation id itself contains colons. -/
theorem C8_action_token_roundtrip (action correlation_id : String)
    (h : ':' ∉ action.data) :
    splitToken (actionToken action correlation_id)
      = some (action, correlation_id) :=
  splitToken_actionToken action correlation_id h

/-- Witness for C8 at a concrete action and a correlation id that itself
contains a colon. -/
theorem C8_action_token_roundtrip_witness :
    splitToken (actionToken "show_details" "ab:cd")
      = some ("show_details", "ab:cd") :=
  C8_action_token_roundtrip "show_details" "ab:cd" (by decide)

/-- C7: an inbound callback whose token contains no colon makes
`processar_webhook` return the client-error body
`{"status": "error", "message": "Formato de callback_data inválido."}`
(the `ValueError` branch of webhook.py lines 201-204) with the store
untouched and no provider call attempted. -/
theorem C7_malformed_token_no_store_write (jobs : List Job)
    (lots : List LotRow) (now : Nat) (callback_data : String)
    (chat_id : Int) (h : ':' ∉ callback_data.data) :
    processar_webhook jobs lots now callback_data chat_id
      = ⟨jobs, .json "error" "Formato de callback_data inválido.", []⟩ := by
  unfold processar_webhook splitToken
  rw [splitFirstColon_eq_none _ h]

/-- Witness for C7 on a one-job store and a colon-free token. -/
theorem C7_malformed_token_no_store_write_witness :
    processar_webhook [sentJob] [sampleLot] 7 "showdetails" 99
      = ⟨[sentJob], .json "error" "Formato de callback_data inválido.", []⟩ :=
  C7_malformed_token_no_store_write [sentJob] [sampleLot] 7 "showdetails" 99
    (by decide)

/-- C10: every call of `TelegramProvider.send_message` with a non-empty
`buttons` argument raises `NameError` before any HTTP request is issued
(`json.dumps` is evaluated but `json` is not imported in
providers/telegram.py), and only calls whose `buttons` list is empty can
reach the HTTP request. -/
theorem C10_send_message_nameerror (chat_id text : String)
    (buttons : List Button) :
    (buttons ≠ [] → send_message chat_id text buttons = .error .nameError) ∧
    (∀ req, send_message chat_id text buttons = .ok req → buttons = []) := by
  have hjson : "json" ∉ telegramImports := by decide
  constructor
  · intro hb
    have hne : buttons.isEmpty = false := by
      cases buttons with
      | nil => exact absurd rfl hb
      | cons a l => rfl
    simp [send_message, hne, hjson]
  · intro req hr
    cases buttons with
    | nil => rfl
    | cons a l => simp [send_message, hjson] at hr

/-- Witness for C10 at the worker's own initial-question buttons. -/
theorem C10_send_message_nameerror_witness :
    send_message "12345" "Deseja ver os detalhes?" (botoesIniciais "cid-1")
      = .error .nameError :=
  (C10_send_message_nameerror "12345" "Deseja ver os detalhes?"
    (botoesIniciais "cid-1")).1 (by decide)

/-- C9 counterexample: the claim that low-level connection retries are
never applied to send operations fails on `EvolutionAPIProvider`: the
`Retry` policy mounted on its session lists `POST` — the method of every
send operation — among `allowed_methods`, so a single `send_text`
invocation may issue up to 4 network attempts. -/
theorem C9_retry_applies_to_send_counterexample :
    (evolutionRetry 3).allowed_methods.contains sendOperationMethod = true ∧
    maxAttempts evolutionRetryPolicy sendOperationMethod = 4 := by
  constructor <;> rfl

/-- C9 amended: the Telegram and Z-API providers issue exactly one
network attempt per send invocation (no retry adapter is mounted), while
the Evolution API provider's connection-retry policy applies to all HTTP
methods including the `POST` used by its send operations, allowing
`1 + total` attempts per invocation. -/
theorem C9_attempts_per_provider :
    maxAttempts telegramRetryPolicy sendOperationMethod = 1 ∧
    maxAttempts zapiRetryPolicy sendOperationMethod = 1 ∧
    maxAttempts evolutionRetryPolicy sendOperationMethod
      = 1 + (evolutionRetry 3).total := by
  refine ⟨rfl, rfl, rfl⟩

/-- C2: the worker's mark-sent is broken: the UPDATE in
`marcar_notificacao_como_enviada` assigns only `status` and `sent_at` —
`provider_message_id` is not in the SET clause — and `cur.execute`
receives two parameters for a single `%s` placeholder, so psycopg2
raises `TypeError` on every call and no job row is ever updated by it. -/
theorem C2_mark_sent_always_raises :
    (∀ (jobs : List Job) (now notification_id : Nat)
        (provider_message_id : String),
      marcar_notificacao_como_enviada jobs now notification_id
          provider_message_id = .error .typeError) ∧
    marcarEnviadaSetColumns.contains "provider_message_id" = false := by
  constructor
  · intro jobs now nid mid
    simp [marcar_notificacao_como_enviada, marcarEnviadaParams,
          marcarEnviadaPlaceholders]
  · decide

/-- C3: the round-trip for a `channel = telegram` job fails at its first
step: the claim query's WHERE clause demands `nq.channel = 'whatsapp'`
(the real channel projection is commented out in worker.py lines 49-62),
so a pending telegram job — even with its profile and saved-search joins
resolvable — is never claimed. -/
theorem C3_telegram_job_never_claimed :
    telegramJob.status = "pending" ∧ telegramJob.channel = "telegram" ∧
    telegramDB.jobs = [telegramJob] ∧
    telegramDB.profiles = [sampleProfile] ∧
    telegramDB.searches = [sampleSearch] ∧
    sampleProfile.user_id = telegramJob.user_id ∧
    sampleSearch.id = telegramJob.saved_search_id ∧
    buscar_notificacao_pendente_do_db telegramDB [] = none := by
  decide

/-- C6 counterexample: a pending job whose provider call fails
permanently (the provider raises `RuntimeError`, which
`enviar_pergunta_inicial` catches, returning `None`) is NOT marked
`failed`: the cycle leaves the store unchanged, the job still has
`status = "pending"`, and the very next cycle claims it again. -/
theorem C6_permanent_failure_not_marked_failed :
    workerCycle waDB 5 sendFalhaPermanente = waDB ∧
    (workerCycle waDB 5 sendFalhaPermanente).jobs = [waJob] ∧
    waJob.status = "pending" ∧
    (buscar_notificacao_pendente_do_db
        (workerCycle waDB 5 sendFalhaPermanente) []).isSome = true := by
  decide

/-- C6 amended: on any provider failure — the worker does not distinguish
permanent from transient, it only checks whether
`enviar_pergunta_inicial` produced a message id — the cycle commits no
change: the job stays `pending` and the claim query's result on a
subsequent cycle is unchanged.  No code path of worker.py sets
`status = 'failed'`. -/
theorem C6_failed_send_leaves_store_unchanged (db : DB) (now : Nat)
    (send : ClaimRow → Except PyError (Option String))
    (hfail : ∀ row mid, send row ≠ .ok (some mid)) :
    workerCycle db now send = db ∧
    buscar_notificacao_pendente_do_db (workerCycle db now send) []
      = buscar_notificacao_pendente_do_db db [] := by
  have h1 : workerCycle db now send = db := by
    unfold workerCycle
    cases hb : buscar_notificacao_pendente_do_db db [] with
    | none => rfl
    | some row =>
      cases hs : send row with
      | error e => simp [hs]
      | ok o =>
        cases o with
        | none => simp [hs]
        | some mid => exact absurd hs (hfail row mid)
  exact ⟨h1, by rw [h1]⟩

/-- Witness for C6 amended on a two-job store. -/
theorem C6_failed_send_leaves_store_unchanged_witness :
    workerCycle waDB2 8 sendFalhaPermanente = waDB2 ∧
    buscar_notificacao_pendente_do_db
        (workerCycle waDB2 8 sendFalhaPermanente) []
      = buscar_notificacao_pendente_do_db waDB2 [] :=
  C6_failed_send_leaves_store_unchanged waDB2 8 sendFalhaPermanente
    (fun _ _ h => Option.noConfusion (Except.ok.inj h))

/-- C1 counterexample: two `record_response` invocations with the same
correlation id both mutate — the second overwrites `response_value` and
`response_at` (webhook.py's UPDATE is unconditional), contradicting
"every later invocation leaves all three fields unchanged". -/
theorem C1_second_call_mutates_counterexample :
    ((registrar_resposta_do_usuario [sentJob] 1 "cid-3" "show_details").map
        Job.response_at = [some 1]) ∧
    ((registrar_resposta_do_usuario
        (registrar_resposta_do_usuario [sentJob] 1 "cid-3" "show_details")
        2 "cid-3" "no_thanks").map Job.response_at = [some 2]) ∧
    ((registrar_resposta_do_usuario
        (registrar_resposta_do_usuario [sentJob] 1 "cid-3" "show_details")
        2 "cid-3" "no_thanks").map Job.response_value
      = [some "no_thanks"]) := by
  decide

theorem mem_registrar (jobs : List Job) (now : Nat)
    (correlation_id acao : String) (j : Job) (hj : j ∈ jobs)
    (hc : j.correlation_id = correlation_id) :
    { j with responded := true, response_value := some acao,
             response_at := some now }
      ∈ registrar_resposta_do_usuario jobs now correlation_id acao := by
  unfold registrar_resposta_do_usuario
  have hmap := List.mem_map_of_mem
    (f := fun k => if k.correlation_id == correlation_id then
      { k with responded := true, response_value := some acao,
               response_at := some now }
    else k) hj
  simpa [hc] using hmap

/-- C1 amended: `record_response` is not idempotent — every invocation of
the webhook handler whose token carries a matching correlation id and a
recognized action mutates the job row, setting `responded := true`,
`response_value` to the action of THAT invocation and `response_at` to
the time of THAT invocation (the second and later deliveries overwrite
the first; no `applied` flag exists), and every such invocation still
attempts an outbound follow-up message through the provider. -/
theorem C1_every_invocation_mutates (jobs : List Job) (lots : List LotRow)
    (now : Nat) (chat_id : Int) (acao correlation_id : String) (j : Job)
    (hj : j ∈ jobs) (hc : j.correlation_id = correlation_id)
    (ha : acao = "show_details" ∨ acao = "no_thanks" ∨ acao = "close_convo")
    (hl : buscar_dados_completos_por_correlation_id
        (registrar_resposta_do_usuario jobs now correlation_id acao) lots
        correlation_id ≠ none) :
    ({ j with responded := true, response_value := some acao,
              response_at := some now }
        ∈ (processar_webhook jobs lots now
            (actionToken acao correlation_id) chat_id).jobs) ∧
    (processar_webhook jobs lots now
        (actionToken acao correlation_id) chat_id).calls ≠ [] := by
  have hcolon : ':' ∉ acao.data := by
    rcases ha with h | h | h <;> subst h <;> decide
  have hsplit := splitToken_actionToken acao correlation_id hcolon
  rcases Option.ne_none_iff_exists'.mp hl with ⟨lote, hlote⟩
  have hmem := mem_registrar jobs now correlation_id acao j hj hc
  have hjson : "json" ∉ telegramImports := by decide
  have b1 : (("no_thanks" : String) == "show_details") = false := by decide
  have b2 : (("close_convo" : String) == "show_details") = false := by decide
  have b3 : (("close_convo" : String) == "no_thanks") = false := by decide
  rcases ha with h | h | h <;> subst h <;>
    simp only [processar_webhook, hsplit, hlote, webhookSend, send_message,
      List.isEmpty_cons, List.isEmpty_nil, Bool.false_eq_true, if_false,
      if_true, beq_self_eq_true, b1, b2, b3, hjson, if_neg, ite_false,
      ite_true] <;>
    exact ⟨hmem, by simp [hjson]⟩

/-- Witness for C1 amended: a SECOND delivery (the job already carries a
recorded `show_details` response from time 1) with action `no_thanks` at
time 9 overwrites the row and still attempts a follow-up send. -/
theorem C1_every_invocation_mutates_witness :
    ({ respondedJob with
        responded := true, response_value := some "no_thanks",
        response_at := some 9 }
      ∈ (processar_webhook [respondedJob] [sampleLot] 9
          (actionToken "no_thanks" "cid-3") 99).jobs) ∧
    (processar_webhook [respondedJob] [sampleLot] 9
        (actionToken "no_thanks" "cid-3") 99).calls ≠ [] :=
  C1_every_invocation_mutates [respondedJob] [sampleLot] 9 99 "no_thanks"
    "cid-3" respondedJob (by decide) rfl (Or.inr (Or.inl rfl)) (by decide)

theorem minByCreated_mem (l : List Job) (j : Job)
    (h : minByCreated l = some j) : j ∈ l := by
  induction l generalizing j with
  | nil => cases h
  | cons a l ih =>
    rw [minByCreated] at h
    cases hm : minByCreated l with
    | none =>
      rw [hm] at h
      simp only [] at h
      injection h with h
      exact h ▸ List.mem_cons_self a l
    | some k =>
      rw [hm] at h
      simp only [] at h
      by_cases hle : a.created_at ≤ k.created_at
      · rw [if_pos hle] at h
        injection h with h
        exact h ▸ List.mem_cons_self a l
      · rw [if_neg hle] at h
        injection h with h
        exact h ▸ List.mem_cons_of_mem a (ih k hm)

theorem minByCreated_eq_none (l : List Job) :
    minByCreated l = none ↔ l = [] := by
  cases l with
  | nil => simp [minByCreated]
  | cons a l =>
    constructor
    · intro h
      exfalso
      rw [minByCreated] at h
      cases hm : minByCreated l with
      | none =>
        rw [hm] at h
        simp only [] at h
        cases h
      | some k =>
        rw [hm] at h
        simp only [] at h
        by_cases hle : a.created_at ≤ k.created_at
        · rw [if_pos hle] at h; cases h
        · rw [if_neg hle] at h; cases h
    · intro h; cases h

theorem minByCreated_le (l : List Job) (j : Job)
    (h : minByCreated l = some j) :
    ∀ k ∈ l, j.created_at ≤ k.created_at := by
  induction l generalizing j with
  | nil => cases h
  | cons a l ih =>
    rw [minByCreated] at h
    cases hm : minByCreated l with
    | none =>
      rw [hm] at h
      simp only [] at h
      injection h with h
      subst h
      intro k hk
      rcases List.mem_cons.mp hk with rfl | hk
      · exact le_rfl
      · rw [(minByCreated_eq_none l).mp hm] at hk
        cases hk
    | some m =>
      rw [hm] at h
      simp only [] at h
      intro k hk
      rcases List.mem_cons.mp hk with rfl | hk
      · by_cases hle : k.created_at ≤ m.created_at
        · rw [if_pos hle] at h
          injection h with h
          subst h
          exact le_rfl
        · rw [if_neg hle] at h
          injection h with h
          subst h
          exact Nat.le_of_lt (Nat.lt_of_not_le hle)
      · by_cases hle : a.created_at ≤ m.created_at
        · rw [if_pos hle] at h
          injection h with h
          subst h
          exact Nat.le_trans hle (ih m hm k hk)
        · rw [if_neg hle] at h
          injection h with h
          subst h
          exact ih m hm k hk

/-- C5: the claim operation returns only a `status = "pending"` job, the
returned job has minimal `created_at` among the jobs eligible for the
query (pending, whatsapp channel, joins resolvable), and when no pending
job exists at all it returns none. -/
theorem C5_claim_selects_oldest_pending (db : DB) :
    (∀ row, buscar_notificacao_pendente_do_db db [] = some row →
      ∃ j ∈ db.jobs, j.id = row.notification_id ∧
        j.correlation_id = row.correlation_id ∧ j.status = "pending" ∧
        ∀ k ∈ db.jobs, (eligibleSql k && joinOk db k) = true →
          j.created_at ≤ k.created_at) ∧
    ((∀ j ∈ db.jobs, j.status ≠ "pending") →
      buscar_notificacao_pendente_do_db db [] = none) := by
  constructor
  · intro row hrow
    unfold buscar_notificacao_pendente_do_db at hrow
    cases hcj : claimJob db [] with
    | none => rw [hcj] at hrow; cases hrow
    | some j =>
      rw [hcj] at hrow
      simp only [] at hrow
      have hmem : j ∈ candidates db [] := minByCreated_mem _ _ hcj
      have hf := List.mem_filter.mp hmem
      have hconds := hf.2
      simp only [Bool.and_eq_true] at hconds
      obtain ⟨⟨he, hjoin⟩, -⟩ := hconds
      simp only [joinOk, Bool.and_eq_true] at hjoin
      rcases Option.isSome_iff_exists.mp hjoin.1 with ⟨up, hup⟩
      rcases Option.isSome_iff_exists.mp hjoin.2 with ⟨ss, hss⟩
      rw [hup, hss] at hrow
      simp only [] at hrow
      injection hrow with hrow
      refine ⟨j, hf.1, ?_, ?_, ?_, ?_⟩
      · rw [← hrow]
      · rw [← hrow]
      · simp only [eligibleSql, Bool.and_eq_true, beq_iff_eq] at he
        exact he.1
      · intro k hk hek
        refine minByCreated_le _ _ hcj k (List.mem_filter.mpr ⟨hk, ?_⟩)
        simp only [Bool.and_eq_true] at hek
        simp only [Bool.and_eq_true, hek.1, hek.2, and_true, true_and]
        rfl
  · intro h
    have hcand : candidates db [] = [] := by
      apply List.filter_eq_nil_iff.mpr
      intro a ha
      intro hcon
      simp only [Bool.and_eq_true, eligibleSql, beq_iff_eq] at hcon
      exact h a ha hcon.1.1.1
    unfold buscar_notificacao_pendente_do_db claimJob
    rw [hcand]
    rfl

/-- Witness for C5 on a store with no pending job. -/
theorem C5_claim_selects_oldest_pending_witness :
    buscar_notificacao_pendente_do_db sentDB [] = none :=
  (C5_claim_selects_oldest_pending sentDB).2 (by decide)

theorem contains_cons_nat (x a : Nat) (l : List Nat) :
    (x :: l).contains a = (a == x || l.contains a) := rfl

theorem candidates_cons (db : DB) (x : Nat) (locked : List Nat) :
    candidates db (x :: locked)
      = (candidates db locked).filter fun j => !(j.id == x) := by
  unfold candidates
  rw [List.filter_filter]
  apply List.filter_congr
  intro j _
  rw [contains_cons_nat]
  cases he : eligibleSql j && joinOk db j <;>
    cases hx : j.id == x <;>
      cases hl : locked.contains j.id <;> rfl

theorem candidates_ids_nodup (db : DB) (locked : List Nat)
    (h : (db.jobs.map Job.id).Nodup) :
    ((candidates db locked).map Job.id).Nodup :=
  List.Nodup.sublist (List.Sublist.map Job.id (List.filter_sublist _)) h

theorem filter_ne_id_length (l : List Job) (j : Job)
    (hnd : (l.map Job.id).Nodup) (hj : j ∈ l) :
    ((l.filter fun k => !(k.id == j.id)).length) + 1 = l.length := by
  induction l with
  | nil => cases hj
  | cons a l ih =>
    rw [List.map_cons, List.nodup_cons] at hnd
    rw [List.filter_cons]
    rcases List.mem_cons.mp hj with h | h
    · subst h
      have hcond : (!(j.id == j.id)) = false := by simp
      rw [if_neg (by rw [hcond]; exact Bool.false_ne_true)]
      have hall : ∀ k ∈ l, (!(k.id == j.id)) = true := by
        intro k hk
        have hne : k.id ≠ j.id := by
          intro heq
          refine hnd.1 ?_
          rw [← heq]
          exact List.mem_map_of_mem Job.id hk
        simp [hne]
      rw [List.filter_eq_self.mpr hall, List.length_cons]
    · have hne : a.id ≠ j.id := by
        intro heq
        refine hnd.1 ?_
        rw [heq]
        exact List.mem_map_of_mem Job.id h
      have hcond : (!(a.id == j.id)) = true := by simp [hne]
      rw [if_pos hcond, List.length_cons, List.length_cons, ← ih hnd.2 h]

theorem runClaims_length (db : DB)
    (hids : (db.jobs.map Job.id).Nodup) :
    ∀ (n : Nat) (locked : List Nat),
      (runClaims db n locked).length = min n (candidates db locked).length := by
  intro n
  induction n with
  | zero => intro locked; simp [runClaims]
  | succ n ih =>
    intro locked
    rw [runClaims]
    cases hc : claimJob db locked with
    | none =>
      have hnil : candidates db locked = [] := (minByCreated_eq_none _).mp hc
      simp [hnil]
    | some j =>
      have hmem : j ∈ candidates db locked := minByCreated_mem _ _ hc
      have hnd := candidates_ids_nodup db locked hids
      have hlen := filter_ne_id_length (candidates db locked) j hnd hmem
      rw [List.length_cons, ih (j.id :: locked), candidates_cons]
      have hpos : 0 < (candidates db locked).length :=
        List.length_pos.mpr (List.ne_nil_of_mem hmem)
      omega

theorem nat_contains_iff (l : List Nat) (a : Nat) :
    l.contains a = true ↔ a ∈ l := by
  induction l with
  | nil => simp [List.contains]
  | cons x l ih =>
    rw [contains_cons_nat]
    simp [ih, beq_iff_eq]

theorem runClaims_nodup (db : DB) :
    ∀ (n : Nat) (locked : List Nat),
      (runClaims db n locked).Nodup ∧
        ∀ i ∈ runClaims db n locked, i ∉ locked := by
  intro n
  induction n with
  | zero => intro locked; simp [runClaims]
  | succ n ih =>
    intro locked
    rw [runClaims]
    cases hc : claimJob db locked with
    | none => simp
    | some j =>
      have hmem : j ∈ candidates db locked := minByCreated_mem _ _ hc
      have hf := (List.mem_filter.mp hmem).2
      simp only [Bool.and_eq_true, Bool.not_eq_true'] at hf
      have hjid : j.id ∉ locked := by
        intro hcon
        rw [(nat_contains_iff locked j.id).mpr hcon] at hf
        simp at hf
      obtain ⟨hnd, hdisj⟩ := ih (j.id :: locked)
      refine ⟨List.nodup_cons.mpr ⟨?_, hnd⟩, ?_⟩
      · intro hmem2
        exact (hdisj _ hmem2) (List.mem_cons_self _ _)
      · intro i hi
        rcases List.mem_cons.mp hi with rfl | hi
        · exact hjid
        · intro hcon
          exact (hdisj i hi) (List.mem_cons_of_mem _ hcon)

theorem runClaims_mem (db : DB) :
    ∀ (n : Nat) (locked : List Nat) (i : Nat), i ∈ runClaims db n locked →
      ∃ j ∈ db.jobs, j.id = i ∧ j.status = "pending" := by
  intro n
  induction n with
  | zero => intro locked i hi; cases hi
  | succ n ih =>
    intro locked i hi
    rw [runClaims] at hi
    cases hc : claimJob db locked with
    | none => rw [hc] at hi; cases hi
    | some j =>
      rw [hc] at hi
      simp only [] at hi
      rcases List.mem_cons.mp hi with rfl | hi
      · have hmem := minByCreated_mem _ _ hc
        have hf := List.mem_filter.mp hmem
        refine ⟨j, hf.1, rfl, ?_⟩
        have he := hf.2
        simp only [eligibleSql, Bool.and_eq_true, beq_iff_eq] at he
        exact he.1.1.1
      · exact ih _ i hi

/-- C4 counterexample: with N = 1 concurrent caller against M = 1 pending
job, `min(N, M) = 1` jobs should be claimed, but when that pending job's
channel is `telegram` the claim query (whose WHERE clause fixes
`nq.channel = 'whatsapp'`) claims nothing. -/
theorem C4_pending_job_skipped_counterexample :
    telegramJob.status = "pending" ∧ telegramDB.jobs = [telegramJob] ∧
    runClaims telegramDB 1 [] = [] ∧ min 1 1 = 1 := by
  decide

/-- C4 amended: for N concurrent `claim_next_pending` calls (modelled
under SKIP LOCKED semantics: each in-flight transaction keeps its claimed
row locked, so every caller skips all rows claimed by the others) against
a table with unique ids, the claimed rows are pairwise distinct, each is
a pending job of the store, and exactly `min N M` rows are claimed where
`M` is the number of jobs eligible for the claim query (pending, channel
whatsapp, joins resolvable) rather than of all pending jobs. -/
theorem C4_concurrent_claims (db : DB) (N : Nat)
    (hids : (db.jobs.map Job.id).Nodup)
    (hN : 1 ≤ N) (hM : 1 ≤ (candidates db []).length) :
    (runClaims db N []).Nodup ∧
    (∀ i ∈ runClaims db N [], ∃ j ∈ db.jobs,
      j.id = i ∧ j.status = "pending") ∧
    (runClaims db N []).length = min N (candidates db []).length :=
  ⟨(runClaims_nodup db N []).1,
   fun i hi => runClaims_mem db N [] i hi,
   runClaims_length db hids N []⟩

/-- Witness for C4 amended: two concurrent callers against two eligible
pending jobs claim exactly the two distinct rows. -/
theorem C4_concurrent_claims_witness :
    (runClaims waDB2 2 []).Nodup ∧
    (∀ i ∈ runClaims waDB2 2 [], ∃ j ∈ waDB2.jobs,
      j.id = i ∧ j.status = "pending") ∧
    (runClaims waDB2 2 []).length = min 2 (candidates waDB2 []).length :=
  C4_concurrent_claims waDB2 2 (by decide) (by decide) (by decide)
